import Mathlib

/-
Verification development for the dooropener service (src/app/dooropener.py).

The Python source is shallowly embedded below:
  * outbound HTTP GET calls (requests.get) are modelled by their observable
    outcome: an HTTP status code, or a raised transport exception;
  * each actor's action sequence is modelled as the list of observable events
    it performs (LED changes, outbound calls, warnings, sleeps), together with
    a flag telling whether the sequence ran to completion (false means an
    uncaught exception propagated and killed the actor's thread);
  * the configuration surface (Dooropener.config / Dooropener.update /
    _save_settings and the /api/status/<key> handler) is modelled as pure
    state-passing functions over a record of the twelve config fields plus the
    persisted document.
Durations are modelled as rationals (Python floats carry exact decimal
literals in all behaviour relevant here).
-/

/-- Outcome of one requests.get call: an HTTP response with a status code, or
a transport/network error raised by the library. -/
inductive GetOutcome where
  | status (code : Nat)
  | raise
  deriving DecidableEq

/-- Observable events of a Relais / VirtualRelais action sequence, in program
order. In the event, Ev.call url ok records an outbound GET that returned;
ok is true when the status was 200 (logged as info), false otherwise (logged
as error). -/
inductive Ev where
  | call (url : String) (ok : Bool)
  | warnNoOn
  | warnNoOff
  | ledOn
  | ledOff
  | sleep (t : ℚ)
  | setHot (b : Bool)
  deriving DecidableEq

/-- Relais._call: performs requests.get(url); a 200 status is logged as info,
any other status as error, and the method returns normally in both cases.
A raised transport error is not caught anywhere in the class, so it
propagates: modelled as none. -/
def Relais.call (url : String) (o : GetOutcome) : Option Ev :=
  match o with
  | GetOutcome.raise => none
  | GetOutcome.status code => some (Ev.call url (decide (code = 200)))

/-- Relais._button_pressed: if on_url is set, call it, else warn; then
led.on(); then sleep(on_time); then if off_url is set, call it, else warn;
then led.off(). The Bool is true when the sequence ran to completion; it is
false when a call raised, in which case the events performed so far are
returned and the rest of the sequence never runs (the exception escapes into
the _handler thread). -/
def Relais.buttonPressed (onUrl offUrl : Option String) (onOut offOut : GetOutcome)
    (onTime : ℚ) : List Ev × Bool :=
  let s1 : List Ev × Bool :=
    match onUrl with
    | none => ([Ev.warnNoOn], true)
    | some u =>
      match Relais.call u onOut with
      | none => ([], false)
      | some ev => ([ev], true)
  match s1 with
  | (evs1, false) => (evs1, false)
  | (evs1, true) =>
    let pre := evs1 ++ [Ev.ledOn, Ev.sleep onTime]
    let s2 : List Ev × Bool :=
      match offUrl with
      | none => ([Ev.warnNoOff], true)
      | some u =>
        match Relais.call u offOut with
        | none => ([], false)
        | some ev => ([ev], true)
    match s2 with
    | (evs2, false) => (pre ++ evs2, false)
    | (evs2, true) => (pre ++ evs2 ++ [Ev.ledOff], true)

/-- VirtualRelais._call is textually identical to Relais._call. -/
def VirtualRelais.call (url : String) (o : GetOutcome) : Option Ev :=
  match o with
  | GetOutcome.raise => none
  | GetOutcome.status code => some (Ev.call url (decide (code = 200)))

/-- VirtualRelais._action: sets hot True; if on_url is set, call it, else
warn; sleep(on_time); sets hot False; if off_url is set, call it, else warn.
Note the source clears hot immediately after the sleep, before the off call.
As in Relais.buttonPressed, false means a call raised and the thread died. -/
def VirtualRelais.action (onUrl offUrl : Option String) (onOut offOut : GetOutcome)
    (onTime : ℚ) : List Ev × Bool :=
  let pre0 := [Ev.setHot true]
  let s1 : List Ev × Bool :=
    match onUrl with
    | none => ([Ev.warnNoOn], true)
    | some u =>
      match VirtualRelais.call u onOut with
      | none => ([], false)
      | some ev => ([ev], true)
  match s1 with
  | (evs1, false) => (pre0 ++ evs1, false)
  | (evs1, true) =>
    let mid := pre0 ++ evs1 ++ [Ev.sleep onTime, Ev.setHot false]
    let s2 : List Ev × Bool :=
      match offUrl with
      | none => ([Ev.warnNoOff], true)
      | some u =>
        match VirtualRelais.call u offOut with
        | none => ([], false)
        | some ev => ([ev], true)
    match s2 with
    | (evs2, false) => (mid ++ evs2, false)
    | (evs2, true) => (mid ++ evs2, true)

/-- VirtualRelais.trigger: if hot, log and return without doing anything;
otherwise spawn the _action thread. Returns whether the action was spawned. -/
def VirtualRelais.trigger (hot : Bool) : Bool :=
  if hot then false else true

/-- Observable events of one Bell._honk run, in program order. -/
inductive BellEv where
  | workOn
  | indOn
  | sleep (t : ℚ)
  | workOff
  | indOff
  deriving DecidableEq

/-- Bell._honk duration selection: the Python test is if not honk_time, which
is true for None and also for 0.0 (zero is falsy), so both fall back to the
stored default honk_time. -/
def Bell.effectiveHonkTime (stored : ℚ) (t : Option ℚ) : ℚ :=
  match t with
  | none => stored
  | some d => if d = 0 then stored else d

/-- Bell._honk: pick the duration, then _on (bell.on(), bell_on.on()), then
sleep, then _off (bell.off(), bell_on.off()). -/
def Bell.honkRun (stored : ℚ) (t : Option ℚ) : List BellEv :=
  [BellEv.workOn, BellEv.indOn, BellEv.sleep (Bell.effectiveHonkTime stored t),
   BellEv.workOff, BellEv.indOff]

/-- Mutable LifeCheck state relevant to the probe: the offline counter and
the wlan_ok LED. -/
structure LifeState where
  offline_counter : Nat
  wlan_ok : Bool
  deriving DecidableEq

/-- LifeCheck._online_check: requests.get(online_url); on status 200 turn the
wlan LED on (the counter is left untouched); on any other status increment
offline_counter and turn the LED off; afterwards, if offline_counter > 5,
issue the reboot (os.system sudo reboot). A raised transport error is not
caught and propagates into the _life_check thread: modelled as none. The
Bool in the result is whether the reboot command was issued. -/
def LifeCheck.onlineCheck (st : LifeState) (o : GetOutcome) : Option (LifeState × Bool) :=
  match o with
  | GetOutcome.raise => none
  | GetOutcome.status code =>
    let st' :=
      if code = 200 then { st with wlan_ok := true }
      else { offline_counter := st.offline_counter + 1, wlan_ok := false }
    some (st', decide (5 < st'.offline_counter))

/-- A run of consecutive _online_check iterations of the _life_check loop,
returning the final state and how many times the reboot command was issued;
none if some iteration raised. -/
def LifeCheck.runChecks (st : LifeState) (os : List GetOutcome) : Option (LifeState × Nat) :=
  match os with
  | [] => some (st, 0)
  | o :: rest =>
    match LifeCheck.onlineCheck st o with
    | none => none
    | some (st', rb) =>
      match LifeCheck.runChecks st' rest with
      | none => none
      | some (st'', n) => some (st'', (if rb then 1 else 0) + n)

/-- A config value as it appears in the dict returned by Dooropener.config():
the url fields are strings or None, the time fields are floats. -/
inductive ConfigValue where
  | str (v : Option String)
  | num (v : ℚ)
  deriving DecidableEq

/-- The twelve live actor fields reachable through Dooropener.config() and
Dooropener.update(). -/
structure ConfigState where
  r1_on_url : Option String
  r1_off_url : Option String
  r1_time : ℚ
  r2_on_url : Option String
  r2_off_url : Option String
  r2_time : ℚ
  online_url : Option String
  online_time : ℚ
  bell_time : ℚ
  ba_on_url : Option String
  ba_off_url : Option String
  ba_time : ℚ
  deriving DecidableEq

/-- A Dooropener together with its persisted config document (config.json);
persisted is none while no file has been written. -/
structure World where
  st : ConfigState
  persisted : Option (List (String × ConfigValue))
  deriving DecidableEq

/-- Field defaults set in Dooropener.__init__ via the component constructors:
Relais 1 with on_time=3, Relais 2 with on_time=60, LifeCheck with
online_time=60 and online_url https://google.de, Bell with honk_time=0.2,
VirtualRelais with on_time=1; all action urls default to None. -/
def Dooropener.initState : ConfigState :=
  { r1_on_url := none, r1_off_url := none, r1_time := 3
  , r2_on_url := none, r2_off_url := none, r2_time := 60
  , online_url := some "https://google.de", online_time := 60
  , bell_time := 1 / 5
  , ba_on_url := none, ba_off_url := none, ba_time := 1 }

def digitsToNat (l : List Char) : Nat :=
  l.foldl (fun acc c => acc * 10 + (c.toNat - 48)) 0

/-- Modelled from the library boundary: Python's built-in float(s) on plain
decimal literals - an optional sign, an integer part and an optional
fractional part after one dot, at least one digit in total; anything else
raises ValueError, modelled as none. (Exponents, inf/nan, underscores and
surrounding whitespace, which the builtin also accepts, do not occur in this
system's config traffic and are left out.) -/
def pyFloat (s : String) : Option ℚ :=
  let cs := s.toList
  let signAndRest : Bool × List Char :=
    match cs with
    | '-' :: r => (true, r)
    | '+' :: r => (false, r)
    | r => (false, r)
  let neg := signAndRest.1
  let rest := signAndRest.2
  let ip := rest.takeWhile (fun c => c.isDigit)
  let tail := rest.dropWhile (fun c => c.isDigit)
  let fps : Option (List Char) :=
    match tail with
    | [] => some []
    | '.' :: r => if r.all (fun c => c.isDigit) then some r else none
    | _ => none
  match fps with
  | none => none
  | some fp =>
    if ip.isEmpty && fp.isEmpty then none
    else
      let v : ℚ := (digitsToNat ip : ℚ) + (digitsToNat fp : ℚ) / ((10 : ℚ) ^ fp.length)
      some (if neg then -v else v)

/-- The dict literal built by Dooropener.config(), as an association list in
source order. -/
def Dooropener.config (st : ConfigState) : List (String × ConfigValue) :=
  [ ("r1_on_url", ConfigValue.str st.r1_on_url)
  , ("r1_off_url", ConfigValue.str st.r1_off_url)
  , ("r1_time", ConfigValue.num st.r1_time)
  , ("r2_on_url", ConfigValue.str st.r2_on_url)
  , ("r2_off_url", ConfigValue.str st.r2_off_url)
  , ("r2_time", ConfigValue.num st.r2_time)
  , ("online_url", ConfigValue.str st.online_url)
  , ("online_time", ConfigValue.num st.online_time)
  , ("bell_time", ConfigValue.num st.bell_time)
  , ("ba_on_url", ConfigValue.str st.ba_on_url)
  , ("ba_off_url", ConfigValue.str st.ba_off_url)
  , ("ba_time", ConfigValue.num st.ba_time) ]

/-- Dict lookup on the dict built by Dooropener.config() (the test
key in values followed by values[key] in the API handler), written out
key by key. -/
def Dooropener.configGet (st : ConfigState) (key : String) : Option ConfigValue :=
  if key = "r1_on_url" then some (ConfigValue.str st.r1_on_url)
  else if key = "r1_off_url" then some (ConfigValue.str st.r1_off_url)
  else if key = "r1_time" then some (ConfigValue.num st.r1_time)
  else if key = "r2_on_url" then some (ConfigValue.str st.r2_on_url)
  else if key = "r2_off_url" then some (ConfigValue.str st.r2_off_url)
  else if key = "r2_time" then some (ConfigValue.num st.r2_time)
  else if key = "online_url" then some (ConfigValue.str st.online_url)
  else if key = "online_time" then some (ConfigValue.num st.online_time)
  else if key = "bell_time" then some (ConfigValue.num st.bell_time)
  else if key = "ba_on_url" then some (ConfigValue.str st.ba_on_url)
  else if key = "ba_off_url" then some (ConfigValue.str st.ba_off_url)
  else if key = "ba_time" then some (ConfigValue.num st.ba_time)
  else none

/-- The fixed key set accepted by Dooropener.update, in source order. -/
def knownKeys : List String :=
  [ "r1_on_url", "r1_off_url", "r1_time", "r2_on_url", "r2_off_url", "r2_time"
  , "online_url", "online_time", "bell_time", "ba_on_url", "ba_off_url", "ba_time" ]

/-- The keys whose update stores the (string-or-None) value verbatim. -/
def stringKeys : List String :=
  ["r1_on_url", "r1_off_url", "r2_on_url", "r2_off_url", "online_url", "ba_on_url", "ba_off_url"]

/-- The keys whose update parses the value with float(). -/
def timeKeys : List String :=
  ["r1_time", "r2_time", "online_time", "bell_time", "ba_time"]

/-- The if/elif chain in the try body of Dooropener.update: url keys store
the value (str(value), or None) directly; time keys store float(value).
none models both the unknown-key case (the final else, success = False) and
a float() exception (ValueError on a bad string, TypeError on None), which
the except arm turns into return False; in every none case no field has been
assigned yet, since float(value) is evaluated before the assignment. -/
def Dooropener.updateField (st : ConfigState) (key : String) (value : Option String) :
    Option ConfigState :=
  if key = "r1_on_url" then some { st with r1_on_url := value }
  else if key = "r1_off_url" then some { st with r1_off_url := value }
  else if key = "r1_time" then (value.bind pyFloat).map (fun q => { st with r1_time := q })
  else if key = "r2_on_url" then some { st with r2_on_url := value }
  else if key = "r2_off_url" then some { st with r2_off_url := value }
  else if key = "r2_time" then (value.bind pyFloat).map (fun q => { st with r2_time := q })
  else if key = "online_url" then some { st with online_url := value }
  else if key = "online_time" then (value.bind pyFloat).map (fun q => { st with online_time := q })
  else if key = "bell_time" then (value.bind pyFloat).map (fun q => { st with bell_time := q })
  else if key = "ba_on_url" then some { st with ba_on_url := value }
  else if key = "ba_off_url" then some { st with ba_off_url := value }
  else if key = "ba_time" then (value.bind pyFloat).map (fun q => { st with ba_time := q })
  else none

/-- Dooropener._save_settings: writes json.dumps(self.config()) to the config
file; any exception from the file write is caught and logged inside this
method and does not propagate. saveOk tells whether the write succeeded; on
failure the persisted document is unchanged. -/
def Dooropener.saveSettings (w : World) (saveOk : Bool) : World :=
  { w with persisted := if saveOk then some (Dooropener.config w.st) else w.persisted }

/-- Dooropener.update(key, value): run the if/elif chain; if it succeeded,
call _save_settings and return True, else return False (the except arm also
returns False). Whether _save_settings managed to write the file does not
influence the returned value. -/
def Dooropener.update (w : World) (key : String) (value : Option String) (saveOk : Bool) :
    Bool × World :=
  match Dooropener.updateField w.st key value with
  | some st' => (true, Dooropener.saveSettings { st := st', persisted := w.persisted } saveOk)
  | none => (false, w)

/-- Rendering of a float by an f-string in the get_value handler; the exact
digits Python prints are not load-bearing for any claim, so the rational is
rendered with its own toString. -/
def fmtNum (q : ℚ) : String :=
  toString q

/-- The GET /api/status/<key> handler get_value: look the key up in the
config() dict; unknown key gives a 404; a known key whose value is None gives
an empty body (Flask default status 200); otherwise the value is formatted
into the body with status 200. -/
def get_value (st : ConfigState) (key : String) : String × Nat :=
  match Dooropener.configGet st key with
  | some (ConfigValue.str none) => ("", 200)
  | some (ConfigValue.str (some s)) => (s, 200)
  | some (ConfigValue.num q) => (fmtNum q, 200)
  | none => ("not found", 404)

/-- C1. The claim says a successful probe resets the consecutive-failure
counter to 0, so after a success 6 further consecutive failures are needed
for a restart. The code has no reset: a 200 response leaves offline_counter
untouched, so after five failures and one success a single further failure
already pushes the counter to 6 and issues the reboot; the run of
failx5, success, fail issues one reboot. -/
theorem lifecheck_success_leaves_counter :
    LifeCheck.onlineCheck ⟨5, false⟩ (GetOutcome.status 200) = some (⟨5, true⟩, false)
    ∧ LifeCheck.onlineCheck ⟨5, true⟩ (GetOutcome.status 500) = some (⟨6, false⟩, true)
    ∧ LifeCheck.runChecks ⟨0, false⟩
        (List.replicate 5 (GetOutcome.status 500) ++ [GetOutcome.status 200, GetOutcome.status 500])
      = some (⟨6, false⟩, 1) := by
  refine ⟨rfl, rfl, by decide⟩

/-- C8. From a counter of 0, six consecutive probe failures issue exactly one
reboot and five issue none; in general the reboot command is issued after a
check exactly when the (updated) counter exceeds 5. -/
theorem restart_threshold :
    LifeCheck.runChecks ⟨0, false⟩ (List.replicate 6 (GetOutcome.status 500))
      = some (⟨6, false⟩, 1)
    ∧ LifeCheck.runChecks ⟨0, false⟩ (List.replicate 5 (GetOutcome.status 500))
      = some (⟨5, false⟩, 0)
    ∧ (∀ (n : Nat) (b : Bool),
        LifeCheck.onlineCheck ⟨n, b⟩ (GetOutcome.status 500)
          = some (⟨n + 1, false⟩, decide (5 < n + 1)))
    ∧ (∀ (n : Nat) (b : Bool),
        LifeCheck.onlineCheck ⟨n, b⟩ (GetOutcome.status 200)
          = some (⟨n, true⟩, decide (5 < n))) := by
  refine ⟨by decide, by decide, fun n b => rfl, fun n b => rfl⟩

/-- C9. The claim says an explicitly provided duration d is slept exactly and
the stored default is used only when the argument is omitted. But the code
guard is if not honk_time, and 0.0 is falsy in Python: honk(0) with the
default 0.2 stored sleeps 0.2 seconds, not 0. -/
theorem honk_zero_uses_default :
    Bell.honkRun (1 / 5) (some 0)
      = [BellEv.workOn, BellEv.indOn, BellEv.sleep (1 / 5), BellEv.workOff, BellEv.indOff]
    ∧ (1 / 5 : ℚ) ≠ 0
    ∧ Bell.effectiveHonkTime (1 / 5) (some 0) ≠ 0 := by
  have h : Bell.effectiveHonkTime (1 / 5) (some 0) = 1 / 5 := by
    simp [Bell.effectiveHonkTime]
  refine ⟨by simp only [Bell.honkRun]; rw [h], by norm_num, by rw [h]; norm_num⟩

/-- C4 (counterexample helper). The step order the claim asserts for one
PhysicalTrigger action sequence, modelled from the claim's words: output
active first, then the on call (or warning), then the sleep, then the off
call (or warning), then output inactive. -/
def specButtonOrder (onUrl offUrl : Option String) (t : ℚ) : List Ev :=
  [Ev.ledOn]
    ++ (match onUrl with | some u => [Ev.call u true] | none => [Ev.warnNoOn])
    ++ [Ev.sleep t]
    ++ (match offUrl with | some u => [Ev.call u true] | none => [Ev.warnNoOff])
    ++ [Ev.ledOff]

/-- C4. With both urls configured and both calls returning 200, the code's
sequence performs the on call before switching the output LED on, so its
trace differs from the order the claim asserts (output active first). -/
theorem button_order_differs_from_spec :
    (Relais.buttonPressed (some "http://a") (some "http://b")
        (GetOutcome.status 200) (GetOutcome.status 200) 3).1
      ≠ specButtonOrder (some "http://a") (some "http://b") 3 := by
  decide

/-- C4 (amended). Within one PhysicalTrigger action sequence the strict order
is: on call (if an on url is configured, else a warning), then output signal
active, then the cool-down sleep, then off call (if an off url is configured,
else a warning), then output signal inactive; the sequence completes. -/
theorem button_pressed_order (onUrl offUrl : Option String) (t : ℚ) :
    Relais.buttonPressed onUrl offUrl (GetOutcome.status 200) (GetOutcome.status 200) t
      = ((match onUrl with | some u => [Ev.call u true] | none => [Ev.warnNoOn])
          ++ [Ev.ledOn, Ev.sleep t]
          ++ (match offUrl with | some u => [Ev.call u true] | none => [Ev.warnNoOff])
          ++ [Ev.ledOff], true) := by
  cases onUrl <;> cases offUrl <;> rfl

/-- C5. The claim says hot is cleared only on completion of the whole
sequence. In the code hot is cleared right after the sleep, before the off
call: in the concrete trace below the last event is the off call, not the
clearing of hot. -/
theorem hot_cleared_before_off_call :
    VirtualRelais.action (some "http://a") (some "http://b")
        (GetOutcome.status 200) (GetOutcome.status 200) 1
      = ([Ev.setHot true, Ev.call "http://a" true, Ev.sleep 1, Ev.setHot false,
          Ev.call "http://b" true], true)
    ∧ (VirtualRelais.action (some "http://a") (some "http://b")
        (GetOutcome.status 200) (GetOutcome.status 200) 1).1.getLast?
      ≠ some (Ev.setHot false) := by
  refine ⟨by decide, by decide⟩

/-- C5 (amended). trigger() while hot is a no-op (nothing is spawned) and
otherwise spawns the sequence; the sequence sets hot true first, performs the
on call (or warning) exactly once, sleeps for the cool-down, clears hot right
after the sleep and before the off call (or warning), which is its last
step. -/
theorem trigger_guard_and_hot_window :
    VirtualRelais.trigger true = false
    ∧ VirtualRelais.trigger false = true
    ∧ (∀ (onUrl offUrl : Option String) (t : ℚ),
        VirtualRelais.action onUrl offUrl (GetOutcome.status 200) (GetOutcome.status 200) t
          = ([Ev.setHot true]
              ++ (match onUrl with | some u => [Ev.call u true] | none => [Ev.warnNoOn])
              ++ [Ev.sleep t, Ev.setHot false]
              ++ (match offUrl with | some u => [Ev.call u true] | none => [Ev.warnNoOff]),
             true)) := by
  refine ⟨rfl, rfl, fun onUrl offUrl t => ?_⟩
  cases onUrl <;> cases offUrl <;> rfl

/-- C2. The claim says any outbound-call failure, including a transport error
raised by the underlying GET, is logged and the sequence or probe loop
continues. In the code nothing catches a raised transport error: the Relais
action sequence aborts before any of its remaining steps (here not even the
LED is switched on), and the LifeCheck probe body propagates the exception
into its loop thread. -/
theorem transport_error_crashes_actor :
    Relais.buttonPressed (some "http://a") (some "http://b") GetOutcome.raise
        (GetOutcome.status 200) 3
      = ([], false)
    ∧ LifeCheck.onlineCheck ⟨0, false⟩ GetOutcome.raise = none := by
  exact ⟨rfl, rfl⟩

/-- C2 (amended). A non-200 status is logged as an error and the enclosing
action sequence or probe iteration continues unaffected; but a transport
error raised by the underlying GET is not caught and propagates, aborting the
sequence or probe iteration (crashing the actor's thread). -/
theorem call_failure_handling :
    (∀ (u : String) (code : Nat), code ≠ 200 →
      Relais.call u (GetOutcome.status code) = some (Ev.call u false))
    ∧ (∀ (onUrl offUrl : Option String) (t : ℚ) (code : Nat), code ≠ 200 →
      (Relais.buttonPressed onUrl offUrl (GetOutcome.status code)
          (GetOutcome.status code) t).2 = true)
    ∧ (∀ (st : LifeState) (code : Nat), code ≠ 200 →
      LifeCheck.onlineCheck st (GetOutcome.status code)
        = some (⟨st.offline_counter + 1, false⟩, decide (5 < st.offline_counter + 1)))
    ∧ (∀ u, Relais.call u GetOutcome.raise = none)
    ∧ (∀ st, LifeCheck.onlineCheck st GetOutcome.raise = none) := by
  refine ⟨?_, ?_, ?_, fun u => rfl, fun st => rfl⟩
  · intro u code h
    simp [Relais.call, decide_eq_false h]
  · intro onUrl offUrl t code h
    cases onUrl <;> cases offUrl <;> simp [Relais.buttonPressed, Relais.call]
  · intro st code h
    simp [LifeCheck.onlineCheck, h]

/-- C2 (witness): the amended theorem applied at status 500 and concrete
actors. -/
theorem call_failure_handling_witness :
    Relais.call "http://a" (GetOutcome.status 500) = some (Ev.call "http://a" false)
    ∧ (Relais.buttonPressed (some "http://a") (some "http://b") (GetOutcome.status 500)
        (GetOutcome.status 500) 3).2 = true
    ∧ LifeCheck.onlineCheck ⟨0, false⟩ (GetOutcome.status 500) = some (⟨1, false⟩, false) :=
  ⟨call_failure_handling.1 "http://a" 500 (by decide),
   call_failure_handling.2.1 (some "http://a") (some "http://b") 3 500 (by decide),
   call_failure_handling.2.2.1 ⟨0, false⟩ 500 (by decide)⟩

/-- Evaluation of the float parser on the literal 4 (used to instantiate
config facts on concrete input). -/
theorem pyFloat_four : pyFloat "4" = some 4 := by
  have h : pyFloat "4" = some (((4 : ℕ) : ℚ) + ((0 : ℕ) : ℚ) / (10 : ℚ) ^ (0 : ℕ)) := rfl
  rw [h]
  norm_num

/-- C3. The claim says any exception during persist makes update report
failure. In the code _save_settings swallows its own exceptions: with the
file write failing (saveOk = false), update of r1_time to 4 still returns
True while the persisted document was never written. -/
theorem update_succeeds_despite_save_failure :
    Dooropener.update ⟨Dooropener.initState, none⟩ "r1_time" (some "4") false
      = (true, ⟨{ Dooropener.initState with r1_time := 4 }, none⟩) := by
  simp [Dooropener.update, Dooropener.updateField, Dooropener.saveSettings, pyFloat_four]

/-- C3 (amended). update applies the mutation and then attempts to persist
the full snapshot before returning; an exception during parse or apply is
caught and reported as failure (update returns false, nothing changed), and a
successful persist stores the full snapshot; but an exception during persist
is caught and logged inside _save_settings without affecting the result:
update still returns true with the durable copy unchanged. -/
theorem update_error_reporting (w : World) (key : String) (v : Option String) :
    (Dooropener.updateField w.st key v = none →
      ∀ saveOk, Dooropener.update w key v saveOk = (false, w))
    ∧ (∀ st', Dooropener.updateField w.st key v = some st' →
        Dooropener.update w key v true = (true, ⟨st', some (Dooropener.config st')⟩)
        ∧ Dooropener.update w key v false = (true, ⟨st', w.persisted⟩)) := by
  constructor
  · intro h saveOk
    simp [Dooropener.update, h]
  · intro st' h
    constructor <;> simp [Dooropener.update, Dooropener.saveSettings, h]

/-- C3 (witness): a failing parse (update returns false and changes nothing)
and a successful parse with a successful persist (update returns true and the
snapshot is persisted), on concrete input. -/
theorem update_error_reporting_witness :
    Dooropener.update ⟨Dooropener.initState, none⟩ "r1_time" (some "abc") true
      = (false, ⟨Dooropener.initState, none⟩)
    ∧ Dooropener.update ⟨Dooropener.initState, none⟩ "r1_time" (some "4") true
      = (true, ⟨{ Dooropener.initState with r1_time := 4 },
                some (Dooropener.config { Dooropener.initState with r1_time := 4 })⟩) :=
  ⟨(update_error_reporting ⟨Dooropener.initState, none⟩ "r1_time" (some "abc")).1 rfl true,
   ((update_error_reporting ⟨Dooropener.initState, none⟩ "r1_time" (some "4")).2
      { Dooropener.initState with r1_time := 4 }
      (by simp [Dooropener.updateField, pyFloat_four])).1⟩

/-- C6. set followed by get round-trips: for the url keys the stored value is
returned verbatim (a string, or None), and for the _time keys the value
parsed by float() is returned. -/
theorem set_get_roundtrip (w : World) (saveOk : Bool) :
    (∀ (key : String) (v : Option String), key ∈ stringKeys →
      Dooropener.configGet ((Dooropener.update w key v saveOk).2.st) key
        = some (ConfigValue.str v))
    ∧ (∀ (key s : String) (q : ℚ), key ∈ timeKeys → pyFloat s = some q →
      Dooropener.configGet ((Dooropener.update w key (some s) saveOk).2.st) key
        = some (ConfigValue.num q)) := by
  constructor
  · intro key v hk
    fin_cases hk <;> rfl
  · intro key s q hk hq
    fin_cases hk <;>
      simp [Dooropener.update, Dooropener.updateField, Dooropener.saveSettings,
        Dooropener.configGet, hq]

/-- C6 (witness): round-trip of a url key and of a time key on concrete
input. -/
theorem set_get_roundtrip_witness :
    Dooropener.configGet ((Dooropener.update ⟨Dooropener.initState, none⟩ "r1_on_url"
        (some "http://x") true).2.st) "r1_on_url" = some (ConfigValue.str (some "http://x"))
    ∧ Dooropener.configGet ((Dooropener.update ⟨Dooropener.initState, none⟩ "r1_time"
        (some "4") true).2.st) "r1_time" = some (ConfigValue.num 4) :=
  ⟨(set_get_roundtrip ⟨Dooropener.initState, none⟩ true).1 "r1_on_url" (some "http://x")
      (by decide),
   (set_get_roundtrip ⟨Dooropener.initState, none⟩ true).2 "r1_time" "4" 4 (by decide)
      pyFloat_four⟩

/-- An unknown key falls through the whole if/elif chain of update. -/
theorem updateField_eq_none_of_unknown (st : ConfigState) (key : String) (v : Option String)
    (h : key ∉ knownKeys) : Dooropener.updateField st key v = none := by
  simp [knownKeys] at h
  obtain ⟨h1, h2, h3, h4, h5, h6, h7, h8, h9, h10, h11, h12⟩ := h
  simp [Dooropener.updateField, h1, h2, h3, h4, h5, h6, h7, h8, h9, h10, h11, h12]

/-- C7. update on a key outside the known key set returns False, mutates no
actor field and leaves the persisted document untouched. -/
theorem unknown_key_rejected (w : World) (key : String) (v : Option String) (saveOk : Bool)
    (h : key ∉ knownKeys) :
    Dooropener.update w key v saveOk = (false, w) := by
  simp [Dooropener.update, updateField_eq_none_of_unknown w.st key v h]

/-- C7 (witness): the theorem applied to the unknown key zz_time. -/
theorem unknown_key_rejected_witness :
    Dooropener.update ⟨Dooropener.initState, none⟩ "zz_time" (some "1") true
      = (false, ⟨Dooropener.initState, none⟩) :=
  unknown_key_rejected ⟨Dooropener.initState, none⟩ "zz_time" (some "1") true (by decide)

/-- An unknown key falls through the whole lookup chain of the config()
dict. -/
theorem configGet_eq_none_of_unknown (st : ConfigState) (key : String)
    (h : key ∉ knownKeys) : Dooropener.configGet st key = none := by
  simp [knownKeys] at h
  obtain ⟨h1, h2, h3, h4, h5, h6, h7, h8, h9, h10, h11, h12⟩ := h
  simp [Dooropener.configGet, h1, h2, h3, h4, h5, h6, h7, h8, h9, h10, h11, h12]

/-- Every known key has an entry in the config() dict. -/
theorem configGet_isSome_of_known (st : ConfigState) (key : String)
    (h : key ∈ knownKeys) : (Dooropener.configGet st key).isSome := by
  fin_cases h <;> rfl

/-- The dict built by config() has an entry exactly for the known keys. -/
theorem configGet_eq_none_iff (st : ConfigState) (key : String) :
    Dooropener.configGet st key = none ↔ key ∉ knownKeys := by
  constructor
  · intro hn hk
    have hs := configGet_isSome_of_known st key hk
    rw [hn] at hs
    simp at hs
  · exact configGet_eq_none_of_unknown st key

/-- C10. GET /api/status/key on a known key whose current value is None
returns an empty body with status 200, and the 404 status is returned exactly
for the keys outside the known key set. -/
theorem get_value_semantics (st : ConfigState) (key : String) :
    (Dooropener.configGet st key = some (ConfigValue.str none) →
      get_value st key = ("", 200))
    ∧ ((get_value st key).2 = 404 ↔ key ∉ knownKeys) := by
  constructor
  · intro h
    simp [get_value, h]
  · rw [← configGet_eq_none_iff st key]
    rcases hv : Dooropener.configGet st key with _ | v
    · simp [get_value, hv]
    · rcases v with ov | q
      · rcases ov with _ | s2
        · simp [get_value, hv]
        · simp [get_value, hv]
      · simp [get_value, hv]

/-- C10 (witness): in the initial state ba_on_url is a known key holding
None, so the handler answers with an empty 200 body, while an unknown key
gets the 404. -/
theorem get_value_semantics_witness :
    get_value Dooropener.initState "ba_on_url" = ("", 200)
    ∧ (get_value Dooropener.initState "zzz").2 = 404 :=
  ⟨(get_value_semantics Dooropener.initState "ba_on_url").1 rfl,
   (get_value_semantics Dooropener.initState "zzz").2.mpr (by decide)⟩
